import Mathlib

/-!
# Verification of the Todo AI Chatbot conversational core

This file embeds, as Lean definitions, the behaviourally relevant parts of the
Todo-In-Memory-Console-App repository (a task-management web app with a
conversational AI interface) and proves properties about them.

Frontend code present in the repository is translated directly:
- `classifyError`, `validateSend` from `src/frontend/components/ChatComponent.tsx`;
- `updateTask` (the Zustand task store) and the `createTask` request default
  from the API/store modules.

The backend conversational core (Message Log, Tool Executor, Turn Orchestrator)
is not included in the repository sources; those components are modelled from
the specification where a definition says so in its doc comment.
-/

/-! ## Frontend: error classification (ChatComponent.tsx, classifyError) -/

/-- The five error types of the frontend `ErrorState` union
(`'api' | 'network' | 'auth' | 'timeout' | 'validation'`). -/
inductive FrontErrType
  | api
  | network
  | auth
  | timeout
  | validation
deriving DecidableEq, Repr

/-- The frontend `ErrorState` shape: user-facing message, type, retryable flag. -/
structure FrontErrorState where
  message : String
  type : FrontErrType
  retryable : Bool
deriving DecidableEq, Repr

/-- The `err.response.data` object: `detail` may be absent. -/
structure AxiosRespData where
  detail : Option String
deriving DecidableEq, Repr

/-- The `err.response` object: HTTP status and optional data payload. -/
structure AxiosResponse where
  status : Nat
  data : Option AxiosRespData
deriving DecidableEq, Repr

/-- An axios-style error value as consumed by `classifyError`:
`response` is absent on network failure; `code` and `message` are optional. -/
structure AxiosError where
  response : Option AxiosResponse
  code : Option String
  message : Option String
deriving DecidableEq, Repr

/-- JavaScript `m.includes("timeout")`: the pattern occurs as a substring,
computed via `String.splitOn` (a nonempty pattern occurs iff splitting yields
at least two pieces). -/
def strIncludesTimeout (m : String) : Bool :=
  decide (2 ≤ (m.splitOn "timeout").length)

/-- The timeout condition of `classifyError`:
`err.code === 'ECONNABORTED' || err.message?.includes('timeout')`. -/
def hasTimeoutSignal (err : AxiosError) : Bool :=
  (err.code == some "ECONNABORTED") ||
    (match err.message with
     | some m => strIncludesTimeout m
     | none => false)

/-- JavaScript `err.response?.data?.detail || 'An error occurred'`:
the fallback applies when `data` or `detail` is absent, and also when
`detail` is the empty string (falsy in JavaScript). -/
def detailOrDefault (resp : AxiosResponse) : String :=
  match resp.data with
  | none => "An error occurred"
  | some d =>
    match d.detail with
    | none => "An error occurred"
    | some s => if s = "" then "An error occurred" else s

/-- Embedding of `classifyError` from `src/frontend/components/ChatComponent.tsx`
lines 53-125,
with the checks in the source order: no response, 401, 403, timeout signal,
400, 429, >= 500, default. -/
def classifyError (err : AxiosError) : FrontErrorState :=
  match err.response with
  | none =>
    ⟨"Network error. Please check your connection and try again.", .network, true⟩
  | some resp =>
    let status := resp.status
    let detail := detailOrDefault resp
    if status = 401 then
      ⟨"Your session has expired. Please log in again.", .auth, false⟩
    else if status = 403 then
      ⟨"You do not have permission to perform this action.", .auth, false⟩
    else if hasTimeoutSignal err then
      ⟨"Request timed out. Please try again.", .timeout, true⟩
    else if status = 400 then
      ⟨detail, .validation, false⟩
    else if status = 429 then
      ⟨"You\x27re sending messages too quickly. Please wait a moment.", .api, true⟩
    else if 500 ≤ status then
      ⟨"Server error. Please try again later.", .api, true⟩
    else
      ⟨if detail = "" then "Failed to process request" else detail, .api, true⟩

/-- JavaScript `s.trim()`: removes whitespace from both ends of the string,
implemented structurally over the character list so it evaluates by kernel
reduction. -/
def jsTrim (s : String) : String :=
  ⟨((s.data.dropWhile Char.isWhitespace).reverse.dropWhile Char.isWhitespace).reverse⟩

/-! ## Frontend: message submission validation (ChatComponent.tsx, handleSendMessage) -/

/-- Outcome of the validation phase of `handleSendMessage`:
either rejected with an `ErrorState`, or submitted to the chat API. -/
inductive SendAction
  | rejected (err : FrontErrorState)
  | submitted (payload : String)
deriving DecidableEq, Repr

/-- The validation phase of `handleSendMessage` (ChatComponent.tsx lines 149-159):
`if (!inputValue.trim())` sets a validation error and returns without any
state change or API call; otherwise the message is submitted. -/
def validateSend (inputValue : String) : SendAction :=
  if jsTrim inputValue = "" then
    .rejected ⟨"Message cannot be empty", .validation, false⟩
  else
    .submitted inputValue

/-! ## Frontend: task store (store.ts, useTaskStore.updateTask) -/

/-- The frontend `Task` interface from the Zustand store. -/
structure FrontTask where
  id : String
  description : String
  completed : Bool
  priority : String
  created_at : String
deriving DecidableEq, Repr

/-- A `Partial<Task>`: every field optional. -/
structure TaskPatch where
  id : Option String
  description : Option String
  completed : Option Bool
  priority : Option String
  created_at : Option String
deriving DecidableEq, Repr

/-- The JavaScript object spread `{ ...task, ...updates }`: fields present in
`updates` override, absent fields keep the task's value. -/
def spreadTask (t : FrontTask) (u : TaskPatch) : FrontTask where
  id := u.id.getD t.id
  description := u.description.getD t.description
  completed := u.completed.getD t.completed
  priority := u.priority.getD t.priority
  created_at := u.created_at.getD t.created_at

/-- Embedding of `useTaskStore.updateTask` from the store module:
`tasks.map(task => task.id === taskId ? { ...task, ...updates } : task)`. -/
def storeUpdateTask (tasks : List FrontTask) (taskId : String) (updates : TaskPatch) :
    List FrontTask :=
  tasks.map (fun task => if task.id = taskId then spreadTask task updates else task)

/-- The `tasksAPI.createTask` request body builder from the API client:
`createTask: (userId, description, priority = 'Medium')` — an omitted
priority defaults to the string `"Medium"`. -/
def createTaskBody (description : String) (priority : Option String) : String × String :=
  (description, priority.getD "Medium")

/-! ## Message Log (spec section 4.1) -/

/-- Sender of a conversation message: `user` or `assistant`. -/
inductive Sender
  | user
  | assistant
deriving DecidableEq, Repr

/-- Modelled from the spec: a `ConversationMessage` row — opaque unique
identifier, owning-user identifier, content, sender, creation timestamp
(section 3, Data Model); the backend persistence layer is not in the
repository sources. -/
structure ConversationMessage where
  id : Nat
  userId : String
  content : String
  sender : Sender
  timestamp : Nat
deriving DecidableEq, Repr

/-- Modelled from the spec: the Message Log — an append-only, per-user ordered
store of conversation rows with a server-side monotone clock (sections 4.1
and 6); the backend persistence layer is not in the repository sources. -/
structure MessageLog where
  rows : List ConversationMessage
  nextId : Nat
  clock : Nat
deriving DecidableEq, Repr

/-- The empty Message Log. -/
def emptyLog : MessageLog := ⟨[], 0, 0⟩

/-- Errors surfaced by the conversational core (spec section 7 taxonomy). -/
inductive UpstreamError
  | unavailable
  | timedOut
  | providerError
  | malformedResponse
deriving DecidableEq, Repr

/-- Turn-level error taxonomy (spec section 7). -/
inductive CoreError
  | validationFailed (msg : String)
  | authorizationFailed
  | upstream (e : UpstreamError)
  | storageFailed
deriving DecidableEq, Repr

/-- Modelled from the spec: `append(userId, content, sender)` — rejects
empty/whitespace-only content after trimming with a validation failure,
otherwise writes one row with a server-side timestamp (section 4.1); the
backend persistence layer is not in the repository sources. The trimmed
text is stored (the spec allows storing original or trimmed). -/
def appendMsg (log : MessageLog) (userId content : String) (sender : Sender) :
    Except CoreError (ConversationMessage × MessageLog) :=
  if jsTrim content = "" then
    .error (.validationFailed "Message cannot be empty")
  else
    let m : ConversationMessage :=
      ⟨log.nextId, userId, jsTrim content, sender, log.clock⟩
    .ok (m, ⟨log.rows ++ [m], log.nextId + 1, log.clock + 1⟩)

/-- Modelled from the spec: `list(userId, limit, offset)` — the per-user rows
in insertion order, windowed by offset then limit; an out-of-range offset
yields an empty sequence, never an error (section 4.1); the backend
persistence layer is not in the repository sources. -/
def listMessages (log : MessageLog) (userId : String) (limit offset : Nat) :
    List ConversationMessage :=
  (((log.rows.filter (fun m => m.userId == userId)).drop offset).take limit)

/-- Modelled from the spec: `recent(userId, count)` — the most recent `count`
messages of the user in ascending chronological order (section 4.1); the
backend persistence layer is not in the repository sources. -/
def recentMessages (log : MessageLog) (userId : String) (count : Nat) :
    List ConversationMessage :=
  let all := log.rows.filter (fun m => m.userId == userId)
  all.drop (all.length - count)

/-- Modelled from the spec: the inbound fetch-history interface — a request
whose authenticated identity does not match the requested history owner
fails with an authorization error, never a filtered-empty result
(sections 4.1 and 6); the backend endpoint is not in the repository
sources. -/
def fetchHistory (authId ownerId : String) (limit offset : Nat) (log : MessageLog) :
    Except CoreError (List ConversationMessage) :=
  if authId = ownerId then
    .ok (listMessages log ownerId limit offset)
  else
    .error .authorizationFailed

/-- Well-formedness invariant of the Message Log maintained by `appendMsg`:
every stored timestamp is below the clock, and timestamps strictly increase
along the row list. -/
def LogWF (log : MessageLog) : Prop :=
  (∀ m ∈ log.rows, m.timestamp < log.clock) ∧
    log.rows.Pairwise (fun a b => a.timestamp < b.timestamp)

/-! ## Task Store and Tool Executor (spec sections 4.2, 4.3, 6) -/

/-- Task priority enum `{Low, Medium, High}` from the Tool Catalogue
(spec section 4.2). -/
inductive Priority
  | low
  | medium
  | high
deriving DecidableEq, Repr

/-- Modelled from the spec: a Task Store entity — identifier, owner,
description, priority, completion flag (section 6, Task Store interface);
the backend task service is not in the repository sources. -/
structure StoredTask where
  id : Nat
  ownerId : String
  description : String
  priority : Priority
  completed : Bool
deriving DecidableEq, Repr

/-- Modelled from the spec: the Task Store state — owned tasks plus a fresh-id
counter (section 6); the backend task service is not in the repository
sources. -/
structure TaskStore where
  tasks : List StoredTask
  nextId : Nat
deriving DecidableEq, Repr

/-- The empty Task Store. -/
def emptyStore : TaskStore := ⟨[], 0⟩

/-- Modelled from the spec: the Tool Executor obtains the target task by id and
verifies its owner matches the authenticated identity; an owner mismatch is
treated exactly like an absent task (section 4.3); the backend executor is
not in the repository sources. -/
def getOwned (s : TaskStore) (authId : String) (taskId : Nat) : Option StoredTask :=
  match s.tasks.find? (fun t => t.id == taskId) with
  | none => none
  | some t => if t.ownerId = authId then some t else none

/-- The five tool invocations of the Tool Catalogue (spec section 4.2):
`add_task`, `list_tasks`, `complete_task`, `delete_task`, `update_task`. -/
inductive ToolCall
  | addTask (description : String) (priority : Option Priority)
  | listTasks
  | completeTask (taskId : Nat)
  | deleteTask (taskId : Nat)
  | updateTask (taskId : Nat) (description : Option String) (priority : Option Priority)
deriving DecidableEq, Repr

/-- Outcome of one tool invocation (spec sections 3 and 4.3): success carries
the operation's value; failures are `taskNotFound` (absent or not owned,
uniformly) and `invalidParams`. -/
inductive ToolResult
  | created (t : StoredTask)
  | listed (ts : List StoredTask)
  | toggled (t : StoredTask)
  | deleted
  | updated (t : StoredTask)
  | taskNotFound
  | invalidParams
deriving DecidableEq, Repr

/-- Modelled from the spec: the Tool Executor dispatch — authorizes and
performs exactly the Task Store operation named by the invocation on behalf
of the fixed authenticated user; `task_id`-taking tools fail uniformly with
`taskNotFound` when the task is absent or owned by another user
(section 4.3); the backend executor is not in the repository sources.
An omitted `add_task` priority defaults to `medium` (section 4.2). -/
def executeTool (authId : String) (s : TaskStore) : ToolCall → ToolResult × TaskStore
  | .addTask d p =>
    if jsTrim d = "" then
      (.invalidParams, s)
    else
      let t : StoredTask := ⟨s.nextId, authId, d, p.getD .medium, false⟩
      (.created t, ⟨s.tasks ++ [t], s.nextId + 1⟩)
  | .listTasks =>
    (.listed (s.tasks.filter (fun t => t.ownerId == authId)), s)
  | .completeTask taskId =>
    match getOwned s authId taskId with
    | none => (.taskNotFound, s)
    | some t =>
      let t1 : StoredTask := { t with completed := !t.completed }
      (.toggled t1, ⟨s.tasks.map (fun u => if u.id == taskId then t1 else u), s.nextId⟩)
  | .deleteTask taskId =>
    match getOwned s authId taskId with
    | none => (.taskNotFound, s)
    | some _ => (.deleted, ⟨s.tasks.filter (fun u => u.id != taskId), s.nextId⟩)
  | .updateTask taskId d p =>
    match getOwned s authId taskId with
    | none => (.taskNotFound, s)
    | some t =>
      let t1 : StoredTask :=
        { t with description := d.getD t.description, priority := p.getD t.priority }
      (.updated t1, ⟨s.tasks.map (fun u => if u.id == taskId then t1 else u), s.nextId⟩)

/-- Modelled from the spec: the Tool Executor loop of the Turn Orchestrator —
tool calls execute strictly sequentially, in the order proposed, each on the
state left by the previous one (spec sections 4.5 step 4 and 5); the backend
orchestrator is not in the repository sources. -/
def execSeq (authId : String) : List ToolCall → TaskStore → List ToolResult × TaskStore
  | [], s => ([], s)
  | c :: cs, s =>
    let p := executeTool authId s c
    let q := execSeq authId cs p.2
    (p.1 :: q.1, q.2)

/-! ## Conversational Agent Adapter and Turn Orchestrator (spec sections 4.4, 4.5) -/

/-- Modelled from the spec: an `AgentResponse` — optional free text plus an
ordered sequence of tool invocation requests (section 4.4); the backend
adapter is not in the repository sources. -/
structure AgentResponse where
  text : Option String
  toolCalls : List ToolCall

/-- Modelled from the spec: the Conversational Agent Adapter as an opaque
capability — `process` takes the user id, the new message and the history
window; `summarize` performs the second round-trip over the tool results.
Either round may fail with an upstream error (section 4.4); the backend
adapter is not in the repository sources. -/
structure AgentAdapter where
  process : String → String → List ConversationMessage → Except UpstreamError AgentResponse
  summarize : String → List ToolResult → Except UpstreamError String

/-- Result of one turn (spec section 4.5): completion carries the reply text,
its timestamp and the ordered operation results; failure carries the
turn-level error. -/
inductive TurnResult
  | completed (reply : String) (timestamp : Nat) (operations : List ToolResult)
  | failed (e : CoreError)
deriving DecidableEq, Repr

/-- Observable output of one turn: the turn result, the Message Log and Task
Store after the turn, and how many agent round-trips were made. -/
structure TurnOutput where
  result : TurnResult
  log : MessageLog
  store : TaskStore
  agentCalls : Nat

/-- Modelled from the spec: the Turn Orchestrator state machine of section 4.5 —
validate (trim; empty fails with a validation error before anything is
persisted and before any agent call), persist the user message, load the
recent-history window, invoke the agent, execute proposed tool calls
strictly in order, make a second agent round-trip when tool calls occurred
(otherwise use the first round's text), persist the assistant reply, and
return the reply with the ordered operation results. An adapter failure
after the user message is persisted reports an upstream failure and does not
roll the user message back. The backend orchestrator is not in the
repository sources. -/
def submitTurn (agent : AgentAdapter) (historyN : Nat) (userId msg : String)
    (log : MessageLog) (store : TaskStore) : TurnOutput :=
  match appendMsg log userId msg .user with
  | .error e => ⟨.failed e, log, store, 0⟩
  | .ok (_, log1) =>
    match agent.process userId msg (recentMessages log1 userId historyN) with
    | .error e => ⟨.failed (.upstream e), log1, store, 1⟩
    | .ok resp =>
      let p := execSeq userId resp.toolCalls store
      let rounds := if resp.toolCalls.isEmpty then 1 else 2
      match
        (if resp.toolCalls.isEmpty then Except.ok (resp.text.getD "")
         else agent.summarize userId p.1) with
      | .error e => ⟨.failed (.upstream e), log1, p.2, rounds⟩
      | .ok reply =>
        match appendMsg log1 userId reply .assistant with
        | .error _ => ⟨.failed .storageFailed, log1, p.2, rounds⟩
        | .ok (am, log2) => ⟨.completed reply am.timestamp p.1, log2, p.2, rounds⟩

/-! ## Helper definitions for witnesses -/

/-- A stub agent adapter that replies with fixed text and no tool calls. -/
def stubAgent : AgentAdapter where
  process := fun _ _ _ => .ok ⟨some "done", []⟩
  summarize := fun _ _ => .ok "done"

/-- An agent adapter whose upstream calls always time out. -/
def failingAgent : AgentAdapter where
  process := fun _ _ _ => .error .timedOut
  summarize := fun _ _ => .error .timedOut

/-! ## Claim theorems -/

/-- C10: `useTaskStore.updateTask` changes only the tasks whose id equals
`taskId` (replacing each with the spread-merge of the given fields), leaves
every other task, the list length and the list order unchanged, and leaves the
list unchanged when no task has that id. -/
theorem c10_updateTask_frame (tasks : List FrontTask) (taskId : String)
    (updates : TaskPatch) :
    (storeUpdateTask tasks taskId updates).length = tasks.length
    ∧ (∀ (i : Nat) (h1 : i < tasks.length)
        (h2 : i < (storeUpdateTask tasks taskId updates).length),
        ((tasks[i]).id ≠ taskId →
          (storeUpdateTask tasks taskId updates)[i] = tasks[i])
        ∧ ((tasks[i]).id = taskId →
          (storeUpdateTask tasks taskId updates)[i] = spreadTask (tasks[i]) updates))
    ∧ ((∀ t ∈ tasks, t.id ≠ taskId) → storeUpdateTask tasks taskId updates = tasks) := by
  refine ⟨by simp [storeUpdateTask], ?_, ?_⟩
  · intro i h1 h2
    constructor
    · intro hne
      simp [storeUpdateTask, hne]
    · intro heq
      simp [storeUpdateTask, heq]
  · intro hall
    induction tasks with
    | nil => rfl
    | cons t ts ih =>
      have ht : t.id ≠ taskId := hall t (by simp)
      have hts : ∀ u ∈ ts, u.id ≠ taskId := fun u hu => hall u (by simp [hu])
      simp only [storeUpdateTask, List.map_cons, if_neg ht, List.cons.injEq]
      exact ⟨trivial, ih hts⟩

/-- Witness for C10 at a concrete list: an update targeting an absent id leaves
the list untouched. -/
theorem c10_updateTask_frame_witness :
    storeUpdateTask [⟨"a", "buy milk", false, "Low", "t0"⟩] "b"
        ⟨none, some "x", none, none, none⟩ = [⟨"a", "buy milk", false, "Low", "t0"⟩] :=
  (c10_updateTask_frame [⟨"a", "buy milk", false, "Low", "t0"⟩] "b"
    ⟨none, some "x", none, none, none⟩).2.2 (by decide)

/-- C9 counterexample: a response with status 400 whose error also carries the
timeout code `ECONNABORTED` is classified as `timeout`, not `validation` —
the timeout-code check precedes the 400 check in `classifyError`, contrary to
the claim. -/
theorem c9_counterexample_400_timeout :
    (classifyError ⟨some ⟨400, none⟩, some "ECONNABORTED", none⟩).type
        = FrontErrType.timeout
    ∧ (classifyError ⟨some ⟨400, none⟩, some "ECONNABORTED", none⟩).type
        ≠ FrontErrType.validation := by
  decide

/-- C9 (amended): `classifyError` is total over error inputs and returns one of
the five error types; no response object means a retryable `network` error;
status 401 and 403 are non-retryable `auth` errors; the timeout-code check
precedes the 400 check, so a 400 with a timeout signal is a retryable
`timeout` error, while a 400 without a timeout signal is a non-retryable
`validation` error; status 429, status >= 500 and all remaining cases are
retryable. -/
theorem c9_classifyError_classification (err : AxiosError) :
    ((classifyError err).type = FrontErrType.api
      ∨ (classifyError err).type = FrontErrType.network
      ∨ (classifyError err).type = FrontErrType.auth
      ∨ (classifyError err).type = FrontErrType.timeout
      ∨ (classifyError err).type = FrontErrType.validation)
    ∧ (err.response = none →
        (classifyError err).type = FrontErrType.network
        ∧ (classifyError err).retryable = true)
    ∧ (∀ resp, err.response = some resp →
        ((resp.status = 401 →
          (classifyError err).type = FrontErrType.auth
          ∧ (classifyError err).retryable = false)
        ∧ (resp.status = 403 →
          (classifyError err).type = FrontErrType.auth
          ∧ (classifyError err).retryable = false)
        ∧ (resp.status ≠ 401 → resp.status ≠ 403 → hasTimeoutSignal err = true →
          (classifyError err).type = FrontErrType.timeout
          ∧ (classifyError err).retryable = true)
        ∧ (resp.status = 400 → hasTimeoutSignal err = false →
          (classifyError err).type = FrontErrType.validation
          ∧ (classifyError err).retryable = false
          ∧ (classifyError err).message = detailOrDefault resp)
        ∧ (resp.status = 429 → hasTimeoutSignal err = false →
          (classifyError err).type = FrontErrType.api
          ∧ (classifyError err).retryable = true)
        ∧ (500 ≤ resp.status → hasTimeoutSignal err = false →
          (classifyError err).type = FrontErrType.api
          ∧ (classifyError err).retryable = true)
        ∧ (resp.status ≠ 401 → resp.status ≠ 403 → resp.status ≠ 400 →
          (classifyError err).retryable = true))) := by
  obtain ⟨response, code, msg⟩ := err
  cases response with
  | none =>
    refine ⟨Or.inr (Or.inl rfl), fun _ => ⟨rfl, rfl⟩, ?_⟩
    intro resp hresp
    cases hresp
  | some resp =>
    obtain ⟨status, data⟩ := resp
    refine ⟨?_, by simp, ?_⟩
    · simp only [classifyError]
      split_ifs <;> simp
    · intro r hr
      injection hr with hr
      subst hr
      dsimp only
      refine ⟨?_, ?_, ?_, ?_, ?_, ?_, ?_⟩
      · intro h; simp [classifyError, h]
      · intro h; simp [classifyError, h]
      · intro h1 h2 ht; simp [classifyError, h1, h2, ht]
      · intro h hf
        subst h
        simp [classifyError, hf]
      · intro h hf
        subst h
        simp [classifyError, hf]
      · intro h hf
        have h1 : status ≠ 401 := by omega
        have h2 : status ≠ 403 := by omega
        have h4 : status ≠ 400 := by omega
        have h9 : status ≠ 429 := by omega
        simp [classifyError, h, h1, h2, h4, h9, hf]
      · intro h1 h2 h4
        simp only [classifyError]
        split_ifs <;> simp_all

/-- Witness for C9 (amended): a concrete error without a response object is
classified as a retryable network error. -/
theorem c9_classifyError_classification_witness :
    (classifyError ⟨none, none, none⟩).type = FrontErrType.network
    ∧ (classifyError ⟨none, none, none⟩).retryable = true :=
  (c9_classifyError_classification ⟨none, none, none⟩).2.1 rfl

/-- C2: for every message that is empty or whitespace-only (trim yields the
empty string), submission fails with a validation error whose user-facing
message is "Message cannot be empty": the frontend `handleSendMessage`
rejects before calling the chat API, and the orchestrator rejects before any
message is persisted (log unchanged), before any task mutation (store
unchanged) and before any agent call (zero agent round-trips). -/
theorem c2_empty_message_rejected (inputValue : String) (h : jsTrim inputValue = "") :
    validateSend inputValue
        = .rejected ⟨"Message cannot be empty", .validation, false⟩
    ∧ ∀ (agent : AgentAdapter) (historyN : Nat) (userId : String)
        (log : MessageLog) (store : TaskStore),
        (submitTurn agent historyN userId inputValue log store).result
            = .failed (.validationFailed "Message cannot be empty")
        ∧ (submitTurn agent historyN userId inputValue log store).log = log
        ∧ (submitTurn agent historyN userId inputValue log store).store = store
        ∧ (submitTurn agent historyN userId inputValue log store).agentCalls = 0 := by
  constructor
  · simp [validateSend, h]
  · intro agent historyN userId log store
    simp [submitTurn, appendMsg, h]

/-- Witness for C2 at the concrete whitespace-only input `"  "`. -/
theorem c2_empty_message_rejected_witness :
    validateSend "  "
        = .rejected ⟨"Message cannot be empty", .validation, false⟩
    ∧ (submitTurn stubAgent 10 "alice" "  " emptyLog emptyStore).agentCalls = 0 := by
  have h := c2_empty_message_rejected "  " (by decide)
  exact ⟨h.1, (h.2 stubAgent 10 "alice" emptyLog emptyStore).2.2.2⟩

/-- C4 (spec-modelled): history retrieval for one user never returns a message
belonging to another user — a successful fetch implies the authenticated
identity matches the owner and every returned row belongs to that owner —
and an identity mismatch fails with an authorization error, never a
silently filtered-empty result. -/
theorem c4_history_isolation (authId ownerId : String) (limit offset : Nat)
    (log : MessageLog) :
    (∀ l, fetchHistory authId ownerId limit offset log = .ok l →
        authId = ownerId ∧ ∀ m ∈ l, m.userId = ownerId)
    ∧ (authId ≠ ownerId →
        fetchHistory authId ownerId limit offset log = .error .authorizationFailed) := by
  constructor
  · intro l hl
    by_cases h : authId = ownerId
    · refine ⟨h, ?_⟩
      have hle : l = listMessages log ownerId limit offset := by
        simp [fetchHistory, h] at hl
        exact hl.symm
      subst hle
      intro m hm
      have hm2 : m ∈ (log.rows.filter (fun x => x.userId == ownerId)) :=
        List.mem_of_mem_drop (List.mem_of_mem_take hm)
      have := (List.mem_filter.mp hm2).2
      simpa using this
    · simp [fetchHistory, h] at hl
  · intro h
    simp [fetchHistory, h]

/-- Witness for C4: a mismatched identity yields an authorization error on a
concrete log. -/
theorem c4_history_isolation_witness :
    fetchHistory "alice" "bob" 10 0 emptyLog = .error .authorizationFailed :=
  (c4_history_isolation "alice" "bob" 10 0 emptyLog).2 (by decide)

/-- C7 (spec-modelled): the empty log is well formed, `append` preserves well
formedness (timestamps below the server clock and strictly increasing in
insertion order), and on any well-formed log `list(userId, limit, offset)`
returns rows strictly ascending by creation time, as a stable subsequence of
the user's insertion sequence, with an offset at or beyond the stored count
yielding the empty sequence rather than an error. -/
theorem c7_list_ordered_window (log : MessageLog) :
    LogWF emptyLog
    ∧ (∀ (userId content : String) (sender : Sender) m log2,
        appendMsg log userId content sender = .ok (m, log2) → LogWF log → LogWF log2)
    ∧ (LogWF log → ∀ (userId : String) (limit offset : Nat),
        (listMessages log userId limit offset).Pairwise
            (fun a b => a.timestamp < b.timestamp)
        ∧ (listMessages log userId limit offset).Sublist
            (log.rows.filter (fun m => m.userId == userId))
        ∧ ((log.rows.filter (fun m => m.userId == userId)).length ≤ offset →
            listMessages log userId limit offset = [])) := by
  refine ⟨⟨by simp [emptyLog], by simp [emptyLog]⟩, ?_, ?_⟩
  · intro userId content sender m log2 happ hwf
    unfold appendMsg at happ
    split at happ
    · simp at happ
    · simp only [Except.ok.injEq, Prod.mk.injEq] at happ
      obtain ⟨hm, hlog⟩ := happ
      subst hm
      subst hlog
      obtain ⟨hclk, hord⟩ := hwf
      constructor
      · intro x hx
        rcases List.mem_append.mp hx with hx1 | hx2
        · exact Nat.lt_succ_of_lt (hclk x hx1)
        · simp at hx2
          subst hx2
          exact Nat.lt_succ_self _
      · rw [List.pairwise_append]
        refine ⟨hord, by simp, ?_⟩
        intro a ha b hb
        simp at hb
        subst hb
        exact hclk a ha
  · intro hwf userId limit offset
    have hsub : (listMessages log userId limit offset).Sublist
        (log.rows.filter (fun m => m.userId == userId)) := by
      unfold listMessages
      exact (List.take_sublist _ _).trans (List.drop_sublist _ _)
    refine ⟨?_, hsub, ?_⟩
    · have hp : (log.rows.filter (fun m => m.userId == userId)).Pairwise
          (fun a b => a.timestamp < b.timestamp) :=
        List.Pairwise.sublist (List.filter_sublist _) hwf.2
      exact List.Pairwise.sublist hsub hp
    · intro hoff
      unfold listMessages
      rw [List.drop_eq_nil_of_le hoff, List.take_nil]

/-- Witness for C7: listing the empty log with an out-of-range offset yields
the empty sequence. -/
theorem c7_list_ordered_window_witness :
    listMessages emptyLog "alice" 5 3 = [] := by
  have h := c7_list_ordered_window emptyLog
  exact (h.2.2 h.1 "alice" 5 3).2.2 (by decide)

/-- C5 (spec-modelled): the Tool Executor loop executes the agent's proposed
tool calls strictly sequentially in exactly the proposed order: every call
produces exactly one result (lengths agree), and the i-th result is computed
by running the i-th call on the Task Store state reached after executing the
first i calls in order — so the state visible to each call reflects the side
effects of all earlier calls in the turn. -/
theorem c5_tools_sequential (authId : String) (calls : List ToolCall) (s : TaskStore) :
    (execSeq authId calls s).1.length = calls.length
    ∧ ∀ (i : Nat) (h1 : i < calls.length)
        (h2 : i < (execSeq authId calls s).1.length),
        (execSeq authId calls s).1.get ⟨i, h2⟩
          = (executeTool authId (execSeq authId (List.take i calls) s).2
              (calls.get ⟨i, h1⟩)).1 := by
  induction calls generalizing s with
  | nil =>
    exact ⟨rfl, fun i h1 h2 => absurd h1 (by simp)⟩
  | cons c cs ih =>
    constructor
    · simpa [execSeq] using (ih (executeTool authId s c).2).1
    · intro i h1 h2
      cases i with
      | zero => simp [execSeq]
      | succ j =>
        have hj1 : j < cs.length := by simpa using h1
        have hj2 : j < (execSeq authId cs (executeTool authId s c).2).1.length := by
          rw [(ih (executeTool authId s c).2).1]
          exact hj1
        have hstep := (ih (executeTool authId s c).2).2 j hj1 hj2
        simpa [execSeq] using hstep

/-- Witness for C5 at the concrete call sequence "add a task, then list tasks":
the second result is computed on the state left by the first call. -/
theorem c5_tools_sequential_witness :
    (execSeq "u" [ToolCall.addTask "buy milk" none, ToolCall.listTasks] emptyStore).1.length = 2
    ∧ (execSeq "u" [ToolCall.addTask "buy milk" none, ToolCall.listTasks] emptyStore).1.get
        ⟨1, by decide⟩
      = (executeTool "u"
          (execSeq "u" (List.take 1 [ToolCall.addTask "buy milk" none, ToolCall.listTasks])
            emptyStore).2
          ([ToolCall.addTask "buy milk" none, ToolCall.listTasks].get ⟨1, by decide⟩)).1 := by
  have h := c5_tools_sequential "u" [ToolCall.addTask "buy milk" none, ToolCall.listTasks]
    emptyStore
  exact ⟨h.1, h.2 1 (by decide) (by decide)⟩

/-- In a list of tasks with pairwise-distinct ids, two members with the same id
are equal. -/
theorem eq_of_mem_of_same_id {l : List StoredTask}
    (hu : l.Pairwise (fun a b => a.id ≠ b.id)) {a b : StoredTask}
    (ha : a ∈ l) (hb : b ∈ l) (hid : a.id = b.id) : a = b := by
  induction l with
  | nil => cases ha
  | cons x xs ih =>
    obtain ⟨hx, hxs⟩ := List.pairwise_cons.mp hu
    rcases List.mem_cons.mp ha with rfl | ha2
    · rcases List.mem_cons.mp hb with rfl | hb2
      · rfl
      · exact absurd hid (hx b hb2)
    · rcases List.mem_cons.mp hb with rfl | hb2
      · exact absurd hid.symm (hx a ha2)
      · exact ih hxs ha2 hb2

/-- Helper: `getOwned` yields `none` when no stored task has the requested id. -/
theorem getOwned_eq_none_of_absent (s : TaskStore) (authId : String) (taskId : Nat)
    (h : ∀ t ∈ s.tasks, t.id ≠ taskId) : getOwned s authId taskId = none := by
  unfold getOwned
  cases hf : s.tasks.find? (fun t => t.id == taskId) with
  | none => rfl
  | some f =>
    have hfid : f.id = taskId := by simpa using List.find?_some hf
    exact absurd hfid (h f (List.mem_of_find?_eq_some hf))

/-- Helper: `getOwned` yields `none` when the task with the requested id is owned by a
different user (given pairwise-distinct ids). -/
theorem getOwned_eq_none_of_foreign (s : TaskStore) (authId : String) (taskId : Nat)
    (hu : s.tasks.Pairwise (fun a b => a.id ≠ b.id)) (t : StoredTask)
    (ht : t ∈ s.tasks) (hid : t.id = taskId) (how : t.ownerId ≠ authId) :
    getOwned s authId taskId = none := by
  unfold getOwned
  cases hf : s.tasks.find? (fun x => x.id == taskId) with
  | none => rfl
  | some f =>
    have hfid : f.id = taskId := by simpa using List.find?_some hf
    have hft : f = t :=
      eq_of_mem_of_same_id hu (List.mem_of_find?_eq_some hf) ht (by rw [hfid, hid])
    subst hft
    simp [how]

/-- C6 (spec-modelled): for each `task_id`-taking tool (`complete_task`,
`delete_task`, `update_task`), a target task that does not exist and a target
task owned by a different user produce the same `taskNotFound` failure kind —
the executor never confirms the existence of another user's task. -/
theorem c6_uniform_not_found (authId : String) (s : TaskStore) (taskId : Nat)
    (hu : s.tasks.Pairwise (fun a b => a.id ≠ b.id))
    (h : (∀ t ∈ s.tasks, t.id ≠ taskId)
       ∨ (∃ t ∈ s.tasks, t.id = taskId ∧ t.ownerId ≠ authId)) :
    (executeTool authId s (.completeTask taskId)).1 = .taskNotFound
    ∧ (executeTool authId s (.deleteTask taskId)).1 = .taskNotFound
    ∧ (∀ d p, (executeTool authId s (.updateTask taskId d p)).1 = .taskNotFound)
    ∧ getOwned s authId taskId = none := by
  have hg : getOwned s authId taskId = none := by
    rcases h with habs | ⟨t, ht, hid, how⟩
    · exact getOwned_eq_none_of_absent s authId taskId habs
    · exact getOwned_eq_none_of_foreign s authId taskId hu t ht hid how
  refine ⟨by simp [executeTool, hg], by simp [executeTool, hg], ?_, hg⟩
  intro d p
  simp [executeTool, hg]

/-- Witness for C6: both the absent-task case (empty store) and the
foreign-owner case (a task owned by another user) produce `taskNotFound`. -/
theorem c6_uniform_not_found_witness :
    (executeTool "alice" emptyStore (.completeTask 0)).1 = .taskNotFound
    ∧ (executeTool "alice" ⟨[⟨0, "bob", "d", .medium, false⟩], 1⟩
        (.completeTask 0)).1 = .taskNotFound := by
  have h1 := c6_uniform_not_found "alice" emptyStore 0 (by simp [emptyStore])
    (Or.inl (by simp [emptyStore]))
  have h2 := c6_uniform_not_found "alice" ⟨[⟨0, "bob", "d", .medium, false⟩], 1⟩ 0
    (by simp)
    (Or.inr ⟨⟨0, "bob", "d", .medium, false⟩, by simp, rfl, by decide⟩)
  exact ⟨h1.1, h2.1⟩

/-- C8 (spec-modelled): a task created through the `add_task` tool immediately
appears in the result of `list_tasks` for the same user with identical
description and priority; an omitted priority defaults to `medium`, matching
the frontend API client whose `createTask` default priority string is
`"Medium"`. -/
theorem c8_add_list_roundtrip (authId : String) (s : TaskStore) (d : String)
    (p : Option Priority) (hd : jsTrim d ≠ "") :
    ∃ t ts,
      (executeTool authId s (.addTask d p)).1 = .created t
      ∧ t.description = d
      ∧ t.priority = p.getD .medium
      ∧ t.ownerId = authId
      ∧ (executeTool authId (executeTool authId s (.addTask d p)).2 .listTasks).1
          = .listed ts
      ∧ t ∈ ts
      ∧ (p = none → t.priority = .medium)
      ∧ createTaskBody d none = (d, "Medium") := by
  refine ⟨⟨s.nextId, authId, d, p.getD .medium, false⟩,
    ((executeTool authId s (.addTask d p)).2.tasks.filter
      (fun t => t.ownerId == authId)), ?_, rfl, rfl, rfl, ?_, ?_,
    fun hp => by simp [hp], rfl⟩
  · simp [executeTool, hd]
  · simp [executeTool, hd]
  · simp [executeTool, hd, List.mem_filter]

/-- Witness for C8: creating "buy milk" with omitted priority in the empty
store and immediately listing yields the task with priority `medium`. -/
theorem c8_add_list_roundtrip_witness :
    ∃ t ts,
      (executeTool "u" emptyStore (.addTask "buy milk" none)).1 = .created t
      ∧ t.description = "buy milk"
      ∧ t.priority = Option.getD none .medium
      ∧ t.ownerId = "u"
      ∧ (executeTool "u" (executeTool "u" emptyStore (.addTask "buy milk" none)).2
          .listTasks).1 = .listed ts
      ∧ t ∈ ts
      ∧ ((none : Option Priority) = none → t.priority = .medium)
      ∧ createTaskBody "buy milk" none = ("buy milk", "Medium") :=
  c8_add_list_roundtrip "u" emptyStore "buy milk" none (by decide)

/-- When the trimmed content is nonempty, `appendMsg` succeeds and returns the
written row and the extended log. -/
theorem appendMsg_ok (log : MessageLog) (userId content : String) (sender : Sender)
    (h : jsTrim content ≠ "") :
    appendMsg log userId content sender =
      .ok (⟨log.nextId, userId, jsTrim content, sender, log.clock⟩,
           ⟨log.rows ++ [⟨log.nextId, userId, jsTrim content, sender, log.clock⟩],
            log.nextId + 1, log.clock + 1⟩) := by
  simp [appendMsg, h]

/-- Inversion for a successful `appendMsg`: the written row carries the caller's
user id, the trimmed content, the given sender, and is appended at the end of
the row list. -/
theorem appendMsg_ok_inv {log : MessageLog} {userId content : String} {sender : Sender}
    {m : ConversationMessage} {log2 : MessageLog}
    (h : appendMsg log userId content sender = .ok (m, log2)) :
    m = ⟨log.nextId, userId, jsTrim content, sender, log.clock⟩
    ∧ log2.rows = log.rows ++ [m] := by
  unfold appendMsg at h
  split at h
  · simp at h
  · simp only [Except.ok.injEq, Prod.mk.injEq] at h
    obtain ⟨h1, h2⟩ := h
    subst h1
    subst h2
    exact ⟨rfl, rfl⟩

/-- C1 (spec-modelled): a turn that completes persists exactly one user-sender
row followed by exactly one assistant-sender row — the Message Log grows by
precisely that ordered pair, both rows attributed to the authenticated
user, the user row carrying the trimmed inbound message. -/
theorem c1_turn_persists_pair (agent : AgentAdapter) (historyN : Nat)
    (userId msg : String) (log : MessageLog) (store : TaskStore)
    (reply : String) (ts : Nat) (ops : List ToolResult)
    (h : (submitTurn agent historyN userId msg log store).result
        = .completed reply ts ops) :
    ∃ u a, (submitTurn agent historyN userId msg log store).log.rows
        = log.rows ++ [u, a]
      ∧ u.sender = .user ∧ u.userId = userId ∧ u.content = jsTrim msg
      ∧ a.sender = .assistant ∧ a.userId = userId ∧ a.content = jsTrim reply := by
  unfold submitTurn at h ⊢
  cases hap : appendMsg log userId msg .user with
  | error e =>
    rw [hap] at h
    simp at h
  | ok pr =>
    obtain ⟨m1, log1⟩ := pr
    rw [hap] at h
    dsimp only at h ⊢
    cases hag : agent.process userId msg (recentMessages log1 userId historyN) with
    | error e =>
      rw [hag] at h
      simp at h
    | ok resp =>
      rw [hag] at h
      dsimp only at h ⊢
      cases hrep : (if resp.toolCalls.isEmpty = true then Except.ok (resp.text.getD "")
          else agent.summarize userId (execSeq userId resp.toolCalls store).1) with
      | error e =>
        rw [hrep] at h
        simp at h
      | ok reply2 =>
        rw [hrep] at h
        dsimp only at h ⊢
        cases hap2 : appendMsg log1 userId reply2 .assistant with
        | error e2 =>
          rw [hap2] at h
          simp at h
        | ok pr2 =>
          obtain ⟨m2, log2⟩ := pr2
          rw [hap2] at h
          dsimp only at h ⊢
          simp only [TurnResult.completed.injEq] at h
          obtain ⟨hr, hts, hops⟩ := h
          obtain ⟨hm1, hrows1⟩ := appendMsg_ok_inv hap
          obtain ⟨hm2, hrows2⟩ := appendMsg_ok_inv hap2
          refine ⟨m1, m2, ?_, ?_, ?_, ?_, ?_, ?_, ?_⟩
          · rw [hrows2, hrows1, List.append_assoc]
            rfl
          · rw [hm1]
          · rw [hm1]
          · rw [hm1]
          · rw [hm2]
          · rw [hm2]
          · rw [hm2, hr]

/-- Witness for C1: the stub agent completes a turn on "hi" from the empty log,
and the log then holds the user row followed by the assistant row. -/
theorem c1_turn_persists_pair_witness :
    ∃ u a, (submitTurn stubAgent 10 "alice" "hi" emptyLog emptyStore).log.rows
        = emptyLog.rows ++ [u, a]
      ∧ u.sender = .user ∧ u.userId = "alice" ∧ u.content = jsTrim "hi"
      ∧ a.sender = .assistant ∧ a.userId = "alice" ∧ a.content = jsTrim "done" :=
  c1_turn_persists_pair stubAgent 10 "alice" "hi" emptyLog emptyStore "done" 1 []
    (by decide)

/-- C3 (spec-modelled): when the agent call fails with an upstream error after
the user message was accepted, the turn reports an upstream failure, the Task
Store is untouched, no assistant message is persisted (the log grows by
exactly the one user row), and the user's message remains retrievable through
history — it is never dropped. -/
theorem c3_upstream_failure_keeps_user_message (agent : AgentAdapter) (historyN : Nat)
    (userId msg : String) (log : MessageLog) (store : TaskStore) (e : UpstreamError)
    (hm : jsTrim msg ≠ "")
    (hfail : ∀ history, agent.process userId msg history = .error e) :
    ∃ u l,
      (submitTurn agent historyN userId msg log store).result = .failed (.upstream e)
      ∧ (submitTurn agent historyN userId msg log store).log.rows = log.rows ++ [u]
      ∧ u.sender = .user ∧ u.userId = userId ∧ u.content = jsTrim msg
      ∧ (submitTurn agent historyN userId msg log store).store = store
      ∧ fetchHistory userId userId
          ((submitTurn agent historyN userId msg log store).log.rows.length) 0
          ((submitTurn agent historyN userId msg log store).log) = .ok l
      ∧ u ∈ l := by
  have hap := appendMsg_ok log userId msg .user hm
  unfold submitTurn
  rw [hap]
  dsimp only
  rw [hfail]
  dsimp only
  refine ⟨ConversationMessage.mk log.nextId userId (jsTrim msg) .user log.clock,
    listMessages
      (MessageLog.mk
        (log.rows ++ [ConversationMessage.mk log.nextId userId (jsTrim msg) .user log.clock])
        (log.nextId + 1) (log.clock + 1))
      userId
      (log.rows ++ [ConversationMessage.mk log.nextId userId (jsTrim msg) .user log.clock]).length
      0,
    rfl, rfl, rfl, rfl, rfl, rfl, ?_, ?_⟩
  · simp [fetchHistory]
  · unfold listMessages
    rw [List.drop_zero,
      List.take_of_length_le (by simpa using List.length_filter_le _ _)]
    simp [List.mem_filter]

/-- Witness for C3: the always-failing agent on "hi" from the empty log leaves
the user row persisted and reports the upstream timeout. -/
theorem c3_upstream_failure_keeps_user_message_witness :
    ∃ u l,
      (submitTurn failingAgent 10 "alice" "hi" emptyLog emptyStore).result
          = .failed (.upstream .timedOut)
      ∧ (submitTurn failingAgent 10 "alice" "hi" emptyLog emptyStore).log.rows
          = emptyLog.rows ++ [u]
      ∧ u.sender = .user ∧ u.userId = "alice" ∧ u.content = jsTrim "hi"
      ∧ (submitTurn failingAgent 10 "alice" "hi" emptyLog emptyStore).store = emptyStore
      ∧ fetchHistory "alice" "alice"
          ((submitTurn failingAgent 10 "alice" "hi" emptyLog emptyStore).log.rows.length) 0
          ((submitTurn failingAgent 10 "alice" "hi" emptyLog emptyStore).log) = .ok l
      ∧ u ∈ l :=
  c3_upstream_failure_keeps_user_message failingAgent 10 "alice" "hi" emptyLog emptyStore
    .timedOut (by decide) (fun _ => rfl)
